import Mathlib

/-!
Verification of the DOS interrupt 0x21 service-call interface in
src/interrupts/mod.rs.  Every Rust wrapper in that file marshals its typed
arguments into fixed processor registers, issues the software interrupt
`int 0x21`, and demarshals the raw output registers into a typed result.

The shallow embedding splits each wrapper into:
* a marshalling part: an `IntCall` recording the input-register state the
  wrapper loads before the interrupt and the output registers it reads back
  afterwards (in source order);
* a demarshalling part, where the wrapper computes anything from the raw
  outputs: a pure function from the raw output-register values to the typed
  return value.

The external operating system's handler is not part of the repository; it
appears as an `oracle` parameter mapping the marshalled input registers to
output registers, with `none` modelling a service call from which control
never returns.
-/

namespace RustDos

/-- Input registers loaded before `int 0x21`; `none` means the wrapper does
not set that register. -/
structure InRegs where
  ah : Nat
  al : Option Nat := none
  dl : Option Nat := none
  dx : Option Nat := none
  deriving Repr, DecidableEq

/-- Raw output-register state left by the interrupt handler. -/
structure OutRegs where
  al : Nat := 0
  bx : Nat := 0
  cx : Nat := 0
  dl : Nat := 0
  dx : Nat := 0
  zf : Bool := false
  deriving Repr, DecidableEq

/-- Names of the output registers a wrapper can read back. -/
inductive RegName
  | al
  | bx
  | cx
  | dl
  | dx
  deriving Repr, DecidableEq

/-- Reads one named output register. -/
def readOut (o : OutRegs) (r : RegName) : Nat :=
  match r with
  | RegName.al => o.al
  | RegName.bx => o.bx
  | RegName.cx => o.cx
  | RegName.dl => o.dl
  | RegName.dx => o.dx

/-- One wrapper invocation: the registers it marshals in and the output
registers it reads after the interrupt.  An empty `reads` list means no
caller-visible step follows the interrupt inside the wrapper. -/
structure IntCall where
  regs : InRegs
  reads : List RegName := []
  deriving Repr, DecidableEq

/-- Executes a wrapper against an operating-system `oracle`.  The oracle maps
the marshalled input registers to the output registers the handler leaves,
or to `none` when the handler never returns control (the terminate family).
The result is the list of raw register values the wrapper reads back; it is
`none` exactly when control never comes back to the wrapper. -/
def runCall (c : IntCall) (oracle : InRegs → Option OutRegs) : Option (List Nat) :=
  (oracle c.regs).map (fun o => c.reads.map (readOut o))

/-- A caller-supplied buffer: the address the Rust wrapper obtains with
`.as_ptr()`, plus the bytes stored there.  The wrappers forward only the
address; the bytes are carried to express that they play no role. -/
structure Buffer where
  addr : Nat
  data : List Nat
  deriving Repr, DecidableEq

/-- The drive-letter enumeration, discriminants 0 (A) through 26 (Unknown). -/
inductive DriveLetter
  | A
  | B
  | C
  | D
  | E
  | F
  | G
  | H
  | I
  | J
  | K
  | L
  | M
  | N
  | O
  | P
  | Q
  | R
  | S
  | T
  | U
  | V
  | W
  | X
  | Y
  | Z
  | Unknown
  deriving Repr, DecidableEq

/-- The Rust discriminant of a `DriveLetter` (what `drive_code as u8` reads). -/
def DriveLetter.code : DriveLetter → Nat
  | DriveLetter.A => 0
  | DriveLetter.B => 1
  | DriveLetter.C => 2
  | DriveLetter.D => 3
  | DriveLetter.E => 4
  | DriveLetter.F => 5
  | DriveLetter.G => 6
  | DriveLetter.H => 7
  | DriveLetter.I => 8
  | DriveLetter.J => 9
  | DriveLetter.K => 10
  | DriveLetter.L => 11
  | DriveLetter.M => 12
  | DriveLetter.N => 13
  | DriveLetter.O => 14
  | DriveLetter.P => 15
  | DriveLetter.Q => 16
  | DriveLetter.R => 17
  | DriveLetter.S => 18
  | DriveLetter.T => 19
  | DriveLetter.U => 20
  | DriveLetter.V => 21
  | DriveLetter.W => 22
  | DriveLetter.X => 23
  | DriveLetter.Y => 24
  | DriveLetter.Z => 25
  | DriveLetter.Unknown => 26

/-- The conversion `impl From<u8> for DriveLetter`: bytes 0 through 25 map to
the letters in order, everything else to `Unknown`. -/
def DriveLetter.ofU8 (value : Nat) : DriveLetter :=
  match value with
  | 0 => DriveLetter.A
  | 1 => DriveLetter.B
  | 2 => DriveLetter.C
  | 3 => DriveLetter.D
  | 4 => DriveLetter.E
  | 5 => DriveLetter.F
  | 6 => DriveLetter.G
  | 7 => DriveLetter.H
  | 8 => DriveLetter.I
  | 9 => DriveLetter.J
  | 10 => DriveLetter.K
  | 11 => DriveLetter.L
  | 12 => DriveLetter.M
  | 13 => DriveLetter.N
  | 14 => DriveLetter.O
  | 15 => DriveLetter.P
  | 16 => DriveLetter.Q
  | 17 => DriveLetter.R
  | 18 => DriveLetter.S
  | 19 => DriveLetter.T
  | 20 => DriveLetter.U
  | 21 => DriveLetter.V
  | 22 => DriveLetter.W
  | 23 => DriveLetter.X
  | 24 => DriveLetter.Y
  | 25 => DriveLetter.Z
  | _ => DriveLetter.Unknown

/-- The alphabet in order, stating the spec's words: position b of this list
is the letter at alphabetic position b (0 is A, 25 is Z). -/
def alphabeticOrder : List DriveLetter :=
  [DriveLetter.A, DriveLetter.B, DriveLetter.C, DriveLetter.D, DriveLetter.E,
   DriveLetter.F, DriveLetter.G, DriveLetter.H, DriveLetter.I, DriveLetter.J,
   DriveLetter.K, DriveLetter.L, DriveLetter.M, DriveLetter.N, DriveLetter.O,
   DriveLetter.P, DriveLetter.Q, DriveLetter.R, DriveLetter.S, DriveLetter.T,
   DriveLetter.U, DriveLetter.V, DriveLetter.W, DriveLetter.X, DriveLetter.Y,
   DriveLetter.Z]

/-- Function 0x00 `program_terminate`: AH := 0x00, DL := psp_address; nothing
is read back after the interrupt. -/
def program_terminate (psp_address : Nat) : IntCall :=
  { regs := { ah := 0x00, dl := some psp_address } }

/-- Function 0x01 `character_input`: takes a byte argument, loads it into DL,
and reads no output register back (returns the unit value). -/
def character_input (c : Nat) : IntCall :=
  { regs := { ah := 0x01, dl := some c } }

/-- Function 0x02 `character_output`: takes no data argument and reads DL
back as its return value. -/
def character_output : IntCall :=
  { regs := { ah := 0x02 }, reads := [RegName.dl] }

/-- Function 0x09 `display_string`: AH := 0x09, DX := the string's address. -/
def display_string (st : Buffer) : IntCall :=
  { regs := { ah := 0x09, dx := some st.addr } }

/-- Function 0x0A `buffered_keyboard_input`: AH := 0x0A, DX := the buffer's
address. -/
def buffered_keyboard_input (st : Buffer) : IntCall :=
  { regs := { ah := 0x0A, dx := some st.addr } }

/-- The `InputFunction` enumeration of selectors accepted by
`flush_input_buffer_and_input`.  The source constructor names are kept except
that the direct-console selector is written `DirectConsoleIo`. -/
inductive InputFunction
  | CharacterInput
  | DirectConsoleIo
  | DirectConsoleInputWithoutEcho
  | CharacterInputWithoutEcho
  | BufferedKeyboardInput
  deriving Repr, DecidableEq

/-- The Rust discriminants of `InputFunction` (what `inp as u8` reads). -/
def InputFunction.code : InputFunction → Nat
  | InputFunction.CharacterInput => 0x01
  | InputFunction.DirectConsoleIo => 0x06
  | InputFunction.DirectConsoleInputWithoutEcho => 0x07
  | InputFunction.CharacterInputWithoutEcho => 0x08
  | InputFunction.BufferedKeyboardInput => 0x0A

/-- Function 0x0C `flush_input_buffer_and_input`: AH := 0x0C, AL := the
selector's discriminant; AL is read back after the interrupt. -/
def flush_input_buffer_and_input (inp : InputFunction) : IntCall :=
  { regs := { ah := 0x0C, al := some ( InputFunction.code inp) },
    reads := [RegName.al] }

/-- Demarshalling of function 0x0C, from the source's
`if let InputFunction::BufferedKeyboardInput = inp { None } else { Some(ret) }`
where ret is the raw AL value left by the interrupt. -/
def flush_input_buffer_and_input_result (inp : InputFunction) (ret : Nat) :
    Option Nat :=
  match inp with
  | InputFunction.BufferedKeyboardInput => none
  | _ => some ret

/-- Function 0x0E `set_default_drive`: AH := 0x0E, DL := the drive letter's
discriminant. -/
def set_default_drive (drive_code : DriveLetter) : IntCall :=
  { regs := { ah := 0x0E, dl := some drive_code.code } }

/-- Function 0x0F `open_file`: AH := 0x0F, DX := the FCB's address. -/
def open_file (fcb : Buffer) : IntCall :=
  { regs := { ah := 0x0F, dx := some fcb.addr } }

/-- Function 0x19 `get_default_drive`: AH := 0x19; AL is read back and
decoded through `DriveLetter::from`. -/
def get_default_drive : IntCall :=
  { regs := { ah := 0x19 }, reads := [RegName.al] }

/-- Decoding step of `get_default_drive`: `DriveLetter::from(ret)` applied to
the raw AL value. -/
def get_default_drive_result (ret : Nat) : DriveLetter :=
  DriveLetter.ofU8 ret

/-- Function 0x1A `set_disk_transfer_address`: AH := 0x1A, DX := the DTA
buffer's address. -/
def set_disk_transfer_address (dta : Buffer) : IntCall :=
  { regs := { ah := 0x1A, dx := some dta.addr } }

/-- The `DriveAllocationInfo` record, fields in source order. -/
structure DriveAllocationInfo where
  sector_num : Nat
  fat_id_addr : Nat
  sector_size : Nat
  number_of_clusters : Nat
  deriving Repr, DecidableEq

/-- Function 0x1B `get_allocation_info_for_default_drive`: AH := 0x1B; AL,
BX, CX, DX are read back. -/
def get_allocation_info_for_default_drive : IntCall :=
  { regs := { ah := 0x1B },
    reads := [RegName.al, RegName.bx, RegName.cx, RegName.dx] }

/-- Demarshalling of function 0x1B: if the AL byte is 0xFF the result is
`none`, otherwise the four raw outputs form the record, in order
AL, BX, CX, DX. -/
def get_allocation_info_for_default_drive_result (o : OutRegs) :
    Option DriveAllocationInfo :=
  if o.al = 0xFF then none
  else
    some { sector_num := o.al, fat_id_addr := o.bx, sector_size := o.cx,
           number_of_clusters := o.dx }

/-- Function 0x1C `get_allocation_info_for_specified_drive`: AH := 0x1C,
DL := the drive letter's discriminant; AL, BX, CX, DX are read back. -/
def get_allocation_info_for_specified_drive (drive_code : DriveLetter) :
    IntCall :=
  { regs := { ah := 0x1C, dl := some drive_code.code },
    reads := [RegName.al, RegName.bx, RegName.cx, RegName.dx] }

/-- Demarshalling of function 0x1C, the same sentinel test as for the
default drive. -/
def get_allocation_info_for_specified_drive_result (o : OutRegs) :
    Option DriveAllocationInfo :=
  if o.al = 0xFF then none
  else
    some { sector_num := o.al, fat_id_addr := o.bx, sector_size := o.cx,
           number_of_clusters := o.dx }

/-- Function 0x21 `random_read`: AH := 0x21, DX := the FCB's address; the raw
AL value is read back and returned. -/
def random_read (previously_opened_fcb : Buffer) : IntCall :=
  { regs := { ah := 0x21, dx := some previously_opened_fcb.addr },
    reads := [RegName.al] }

/-- Function 0x22 `random_write`, shaped exactly like `random_read`. -/
def random_write (previously_opened_fcb : Buffer) : IntCall :=
  { regs := { ah := 0x22, dx := some previously_opened_fcb.addr },
    reads := [RegName.al] }

/-- Function 0x23 `get_file_size_in_records`, same shape. -/
def get_file_size_in_records (previously_opened_fcb : Buffer) : IntCall :=
  { regs := { ah := 0x23, dx := some previously_opened_fcb.addr },
    reads := [RegName.al] }

/-- Function 0x24 `set_random_record_number`, same shape. -/
def set_random_record_number (previously_opened_fcb : Buffer) : IntCall :=
  { regs := { ah := 0x24, dx := some previously_opened_fcb.addr },
    reads := [RegName.al] }

/-- Function 0x31 `terminate_and_stay_resident`: AH := 0x31, DL := `ch`.  In
the source `ch` is an identifier that is never declared (the spec reads the
wrappers past selector 0x24 as placeholders); it is modelled as a
parameter.  Nothing is read back after the interrupt. -/
def terminate_and_stay_resident (c : Nat) : IntCall :=
  { regs := { ah := 0x31, dl := some c } }

/-- Function 0x4C `terminate_with_return_code`: AH := 0x4C, DL := `ch` (the
same undeclared placeholder identifier, modelled as a parameter).  Nothing is
read back after the interrupt. -/
def terminate_with_return_code (c : Nat) : IntCall :=
  { regs := { ah := 0x4C, dl := some c } }

/-- State of the external operating system relevant to the default-drive
calls: the stored default drive code.  This is the test double the round-trip
claim prescribes for the interrupt handler: function 0x0E stores the drive
code passed in DL, and function 0x19 returns the stored code in AL. -/
structure DosState where
  defaultDrive : Nat
  deriving Repr, DecidableEq

/-- The modelled interrupt handler for functions 0x0E and 0x19: it stores the
drive code set and returns it on query, leaving the state unchanged on query
and on any other function number. -/
def int21_drive_handler (s : DosState) (r : InRegs) : DosState × OutRegs :=
  if r.ah = 0x0E then ({ defaultDrive := (r.dl).getD 0 }, {})
  else if r.ah = 0x19 then (s, { al := s.defaultDrive })
  else (s, {})

/-- Runs the `set_default_drive` wrapper against the modelled handler. -/
def set_default_drive_run (s : DosState) (drive_code : DriveLetter) :
    DosState :=
  (int21_drive_handler s (set_default_drive drive_code).regs).1

/-- Runs the `get_default_drive` wrapper against the modelled handler,
decoding the returned AL byte exactly as the wrapper does. -/
def get_default_drive_run (s : DosState) : DriveLetter × DosState :=
  let p := int21_drive_handler s get_default_drive.regs
  (get_default_drive_result (p.2).al, p.1)

/-- The byte registers addressable in x86 Intel-syntax assembly. -/
inductive ByteReg
  | al
  | ah
  | bl
  | bh
  | cl
  | ch
  | dl
  | dh
  deriving Repr, DecidableEq

/-- Parses an Intel-syntax operand token as a byte register, when it names
one. -/
def byteRegOfToken (s : String) : Option ByteReg :=
  if s = "al" then some ByteReg.al
  else if s = "ah" then some ByteReg.ah
  else if s = "bl" then some ByteReg.bl
  else if s = "bh" then some ByteReg.bh
  else if s = "cl" then some ByteReg.cl
  else if s = "ch" then some ByteReg.ch
  else if s = "dl" then some ByteReg.dl
  else if s = "dh" then some ByteReg.dh
  else none

/-- A source operand of a `mov r8, src` instruction: either a byte register,
or — when the token names no register — a memory reference through the symbol
of that name, which is how Intel syntax reads a bare non-register
identifier. -/
inductive MovSrc
  | reg : ByteReg → MovSrc
  | mem : String → MovSrc
  deriving Repr, DecidableEq

/-- Resolves an operand token: a register when it names one, otherwise a
memory reference through that symbol. -/
def movSrcOfToken (s : String) : MovSrc :=
  match byteRegOfToken s with
  | some r => MovSrc.reg r
  | none => MovSrc.mem s

/-- The source operand token of the instruction `mov bl, zf` in the
`direct_console_io` assembly block. -/
def zfToken : String := "zf"

/-- Machine state for the `direct_console_io` assembly fragment: the eight
byte registers, the zero flag, and memory, addressed here by symbol name. -/
structure Machine where
  al : Nat := 0
  ah : Nat := 0
  bl : Nat := 0
  bh : Nat := 0
  cl : Nat := 0
  ch : Nat := 0
  dl : Nat := 0
  dh : Nat := 0
  zf : Bool := false
  mem : String → Nat := fun _ => 0

/-- Reads a byte register of the machine. -/
def readByteReg (m : Machine) (r : ByteReg) : Nat :=
  match r with
  | ByteReg.al => m.al
  | ByteReg.ah => m.ah
  | ByteReg.bl => m.bl
  | ByteReg.bh => m.bh
  | ByteReg.cl => m.cl
  | ByteReg.ch => m.ch
  | ByteReg.dl => m.dl
  | ByteReg.dh => m.dh

/-- Executes `mov bl, src`: a register source copies that register into BL;
a symbol source loads BL from memory at that symbol.  The zero flag is not
a possible source, because no byte register names it. -/
def execMovBl (m : Machine) (src : MovSrc) : Machine :=
  match src with
  | MovSrc.reg r => { m with bl := readByteReg m r }
  | MovSrc.mem s => { m with bl := m.mem s }

/-- Effect of `int 0x21` with AH = 0x06 on the machine: the handler leaves a
byte in AL and a zero-flag state; both are chosen by the external operating
system, so they are parameters of the model. -/
def int21_function06 (m : Machine) (alOut : Nat) (zfOut : Bool) : Machine :=
  { m with al := alOut, zf := zfOut }

/-- The body of `direct_console_io`: load AH := 0x06 and DL := the argument,
execute `int 0x21`, execute `mov bl, zf`, then return the pair
`(al, bl != 0)` from the registers the wrapper reads back. -/
def direct_console_io (m : Machine) (c : Nat) (alOut : Nat) (zfOut : Bool) :
    Nat × Bool :=
  let m1 := { m with ah := 0x06, dl := c }
  let m2 := int21_function06 m1 alOut zfOut
  let m3 := execMovBl m2 (movSrcOfToken zfToken)
  (m3.al, m3.bl != 0)

/-- Claim C1: for both allocation-info wrappers, an AL byte equal to 0xFF
demarshals to none, and every other AL value demarshals to some record whose
four fields are the raw AL, BX, CX, DX values verbatim, in that order. -/
theorem allocation_info_sentinel (o : OutRegs) :
    (o.al = 0xFF →
      get_allocation_info_for_default_drive_result o = none
        ∧ get_allocation_info_for_specified_drive_result o = none)
    ∧ (o.al ≠ 0xFF →
      get_allocation_info_for_default_drive_result o =
          some { sector_num := o.al, fat_id_addr := o.bx, sector_size := o.cx,
                 number_of_clusters := o.dx }
        ∧ get_allocation_info_for_specified_drive_result o =
          some { sector_num := o.al, fat_id_addr := o.bx, sector_size := o.cx,
                 number_of_clusters := o.dx }) := by
  refine ⟨fun h => ?_, fun h => ?_⟩ <;>
    simp [get_allocation_info_for_default_drive_result,
      get_allocation_info_for_specified_drive_result, h]

/-- Concrete instance of `allocation_info_sentinel` at the sentinel byte and
at an ordinary byte. -/
theorem allocation_info_sentinel_witness :
    get_allocation_info_for_default_drive_result
        { al := 0xFF, bx := 1, cx := 2, dx := 3 } = none
    ∧ get_allocation_info_for_specified_drive_result
        { al := 2, bx := 64, cx := 512, dx := 128 } =
      some { sector_num := 2, fat_id_addr := 64, sector_size := 512,
             number_of_clusters := 128 } :=
  ⟨((allocation_info_sentinel { al := 0xFF, bx := 1, cx := 2, dx := 3 }).1
      rfl).1,
   ((allocation_info_sentinel { al := 2, bx := 64, cx := 512, dx := 128 }).2
      (by decide)).2⟩

/-- Claim C2: decoding a byte to a `DriveLetter` is total: every byte 0..=25
decodes to the letter at that alphabetic position (position 0 is A, position
25 is Z) and never to Unknown, and every byte from 26 up decodes to
Unknown. -/
theorem drive_letter_decode_total (b : Nat) :
    (b ≤ 25 →
      List.get? alphabeticOrder b = some ( DriveLetter.ofU8 b)
        ∧ DriveLetter.ofU8 b ≠ DriveLetter.Unknown)
    ∧ (26 ≤ b → DriveLetter.ofU8 b = DriveLetter.Unknown) := by
  constructor
  · intro hb
    interval_cases b <;> exact ⟨rfl, by decide⟩
  · intro hb
    obtain ⟨k, rfl⟩ : ∃ k, b = k + 26 := ⟨b - 26, by omega⟩
    rfl

/-- Concrete instances of `drive_letter_decode_total` at bytes 0, 25 and
200. -/
theorem drive_letter_decode_total_witness :
    List.get? alphabeticOrder 0 = some ( DriveLetter.ofU8 0)
    ∧ List.get? alphabeticOrder 25 = some ( DriveLetter.ofU8 25)
    ∧ DriveLetter.ofU8 200 = DriveLetter.Unknown :=
  ⟨((drive_letter_decode_total 0).1 (by decide)).1,
   ((drive_letter_decode_total 25).1 (by decide)).1,
   (drive_letter_decode_total 200).2 (by decide)⟩

/-- Claim C3: `flush_input_buffer_and_input` returns none for the
buffered-keyboard-input selector regardless of the raw AL byte, and for each
of the other four selectors returns some of that raw byte unmodified. -/
theorem flush_input_dispatch (inp : InputFunction) (ret : Nat) :
    (inp = InputFunction.BufferedKeyboardInput →
      flush_input_buffer_and_input_result inp ret = none)
    ∧ (inp ≠ InputFunction.BufferedKeyboardInput →
      flush_input_buffer_and_input_result inp ret = some ret) := by
  cases inp <;>
    simp [flush_input_buffer_and_input_result]

/-- Concrete instances of `flush_input_dispatch` for the buffered selector
and a character selector. -/
theorem flush_input_dispatch_witness :
    flush_input_buffer_and_input_result InputFunction.BufferedKeyboardInput 65
        = none
    ∧ flush_input_buffer_and_input_result InputFunction.CharacterInput 65
        = some 65 :=
  ⟨(flush_input_dispatch InputFunction.BufferedKeyboardInput 65).1 rfl,
   (flush_input_dispatch InputFunction.CharacterInput 65).2 (by decide)⟩

/-- Claim C4: the source operand token of `mov bl, zf` names no x86 byte
register, so the instruction reads memory at the symbol zf rather than the
zero flag; consequently `direct_console_io` returns the same pair for both
zero-flag outcomes of the interrupt, and a model presenting both flag states
observes only one boolean outcome, contrary to the claim. -/
theorem direct_console_io_flag_not_captured :
    movSrcOfToken zfToken = MovSrc.mem zfToken
    ∧ direct_console_io {} 0xFF 0 true = direct_console_io {} 0xFF 0 false
    ∧ (direct_console_io {} 0xFF 0 true).2 = false :=
  ⟨rfl, rfl, rfl⟩

/-- Claim C5: each pointer-passing wrapper places the caller-supplied address
in DX verbatim, and its marshalled call depends only on the address — two
buffers with the same address but arbitrary, unvalidated contents produce
identical calls. -/
theorem pointer_forwarding (b c : Buffer) (h : b.addr = c.addr) :
    ((display_string b).regs.dx = some b.addr
        ∧ display_string b = display_string c)
    ∧ ((buffered_keyboard_input b).regs.dx = some b.addr
        ∧ buffered_keyboard_input b = buffered_keyboard_input c)
    ∧ ((open_file b).regs.dx = some b.addr ∧ open_file b = open_file c)
    ∧ ((set_disk_transfer_address b).regs.dx = some b.addr
        ∧ set_disk_transfer_address b = set_disk_transfer_address c) := by
  simp [display_string, buffered_keyboard_input, open_file,
    set_disk_transfer_address, h]

/-- Concrete instance of `pointer_forwarding`: a terminated string buffer and
an empty buffer at the same address marshal identically. -/
theorem pointer_forwarding_witness :
    (display_string { addr := 100, data := [72, 105, 36] }).regs.dx = some 100
    ∧ display_string { addr := 100, data := [72, 105, 36] }
        = display_string { addr := 100, data := [] } :=
  (pointer_forwarding { addr := 100, data := [72, 105, 36] }
    { addr := 100, data := [] } rfl).1

/-- Claim C6: the four status-returning FCB operations hand the raw AL byte
left by the interrupt back to the caller uninterpreted: the caller-visible
result of each call is exactly the raw AL value. -/
theorem fcb_status_passthrough (fcb : Buffer)
    (oracle : InRegs → Option OutRegs) (o1 o2 o3 o4 : OutRegs)
    (h1 : oracle (random_read fcb).regs = some o1)
    (h2 : oracle (random_write fcb).regs = some o2)
    (h3 : oracle (get_file_size_in_records fcb).regs = some o3)
    (h4 : oracle (set_random_record_number fcb).regs = some o4) :
    runCall (random_read fcb) oracle = some [o1.al]
    ∧ runCall (random_write fcb) oracle = some [o2.al]
    ∧ runCall (get_file_size_in_records fcb) oracle = some [o3.al]
    ∧ runCall (set_random_record_number fcb) oracle = some [o4.al] := by
  unfold runCall
  rw [h1, h2, h3, h4]
  exact ⟨rfl, rfl, rfl, rfl⟩

/-- Concrete instance of `fcb_status_passthrough` with an oracle that leaves
each call's own selector in AL. -/
theorem fcb_status_passthrough_witness :
    runCall (random_read { addr := 0, data := [] })
        (fun r => some { al := r.ah }) = some [0x21]
    ∧ runCall (random_write { addr := 0, data := [] })
        (fun r => some { al := r.ah }) = some [0x22]
    ∧ runCall (get_file_size_in_records { addr := 0, data := [] })
        (fun r => some { al := r.ah }) = some [0x23]
    ∧ runCall (set_random_record_number { addr := 0, data := [] })
        (fun r => some { al := r.ah }) = some [0x24] :=
  fcb_status_passthrough { addr := 0, data := [] }
    (fun r => some { al := r.ah })
    { al := 0x21 } { al := 0x22 } { al := 0x23 } { al := 0x24 }
    rfl rfl rfl rfl

/-- Claim C7: setting the default drive to a letter A..=Z and immediately
querying it, against the modelled handler that stores the drive code and
returns it on query, yields that same letter back. -/
theorem set_then_get_default_drive (s : DosState) (d : DriveLetter)
    (h : d ≠ DriveLetter.Unknown) :
    (get_default_drive_run (set_default_drive_run s d)).1 = d := by
  clear h
  cases d <;> rfl

/-- Concrete instance of `set_then_get_default_drive` at drive C. -/
theorem set_then_get_default_drive_witness :
    (get_default_drive_run
        (set_default_drive_run { defaultDrive := 3 } DriveLetter.C)).1
      = DriveLetter.C :=
  set_then_get_default_drive { defaultDrive := 3 } DriveLetter.C (by decide)

/-- Claim C8: `get_default_drive` is a pure query of the modelled state — it
leaves the state unchanged, so two queries in a row decode to the same
`DriveLetter`. -/
theorem get_default_drive_idempotent (s : DosState) :
    (get_default_drive_run ((get_default_drive_run s).2)).1
        = (get_default_drive_run s).1
    ∧ (get_default_drive_run s).2 = s :=
  ⟨rfl, rfl⟩

/-- Claim C9: the three terminate wrappers read no output register back, so no
caller-visible step follows the interrupt inside them; and when the handler
never returns control from the interrupt they issue, the whole call yields no
caller-visible result. -/
theorem terminate_calls_one_way (psp c1 c2 : Nat)
    (oracle : InRegs → Option OutRegs)
    (h0 : oracle (program_terminate psp).regs = none)
    (h1 : oracle (terminate_and_stay_resident c1).regs = none)
    (h2 : oracle (terminate_with_return_code c2).regs = none) :
    ((program_terminate psp).reads = []
        ∧ runCall (program_terminate psp) oracle = none)
    ∧ ((terminate_and_stay_resident c1).reads = []
        ∧ runCall (terminate_and_stay_resident c1) oracle = none)
    ∧ ((terminate_with_return_code c2).reads = []
        ∧ runCall (terminate_with_return_code c2) oracle = none) := by
  refine ⟨⟨rfl, ?_⟩, ⟨rfl, ?_⟩, ⟨rfl, ?_⟩⟩ <;>
    simp [runCall, h0, h1, h2]

/-- Concrete instance of `terminate_calls_one_way` with a handler that never
returns control. -/
theorem terminate_calls_one_way_witness :
    runCall (program_terminate 0) (fun _ => none) = none
    ∧ runCall (terminate_and_stay_resident 0) (fun _ => none) = none
    ∧ runCall (terminate_with_return_code 1) (fun _ => none) = none :=
  ⟨(terminate_calls_one_way 0 0 1 (fun _ => none) rfl rfl rfl).1.2,
   (terminate_calls_one_way 0 0 1 (fun _ => none) rfl rfl rfl).2.1.2,
   (terminate_calls_one_way 0 0 1 (fun _ => none) rfl rfl rfl).2.2.2⟩

/-- Claim C10: `character_input` (selector 0x01) places its byte argument in
DL and reads nothing back, while `character_output` (selector 0x02) sets no
data register and returns the byte read out of DL — the register roles are
exactly as the claim describes, inverted relative to the documented read and
write directions. -/
theorem character_io_register_roles (c : Nat)
    (oracle : InRegs → Option OutRegs) (o : OutRegs)
    (h : oracle character_output.regs = some o) :
    ((character_input c).regs.ah = 0x01
        ∧ (character_input c).regs.dl = some c
        ∧ (character_input c).reads = [])
    ∧ (character_output.regs.ah = 0x02
        ∧ character_output.regs.al = none
        ∧ character_output.regs.dl = none
        ∧ character_output.regs.dx = none
        ∧ character_output.reads = [RegName.dl]
        ∧ runCall character_output oracle = some [o.dl]) := by
  refine ⟨⟨rfl, rfl, rfl⟩, rfl, rfl, rfl, rfl, rfl, ?_⟩
  unfold runCall
  rw [h]
  rfl

/-- Concrete instance of `character_io_register_roles`: the byte the oracle
leaves in DL is the value `character_output` returns. -/
theorem character_io_register_roles_witness :
    (character_input 65).regs.dl = some 65
    ∧ runCall character_output (fun _ => some { dl := 66 }) = some [66] :=
  ⟨(character_io_register_roles 65 (fun _ => some { dl := 66 })
      { dl := 66 } rfl).1.2.1,
   (character_io_register_roles 65 (fun _ => some { dl := 66 })
      { dl := 66 } rfl).2.2.2.2.2.2⟩

end RustDos
